import Mathlib

/-!
Verification of the `csrf` middleware package (`src/csrf.go`) against its
natural-language specification.

The Go source is shallowly embedded: the issuance middleware `Generate` and
the verification middleware `Validate` become pure Lean functions over an
explicit request/session model; the Go panic on an unchecked type assertion
is modelled by an `Option` result (`none` = panic).

The package-level Token Authority functions `GenerateToken` and `ValidToken`
are called by `src/csrf.go` but their definitions are not part of the given
source; they are modelled from the spec (section 4.1), see their doc
comments.
-/

set_option maxRecDepth 4000

/-- A dynamically-typed Go value (`interface\x7b\x7d`) as stored in the session.
Only the shapes the middleware can observe matter: a string, or some
non-string value (represented by an integer payload). -/
inductive GoVal where
  | str (s : String)
  | int (n : Int)
deriving DecidableEq

/-- `fmt.Sprintf("%s", v)`: a string formats as itself; a non-string value
formats with Go's bad-verb notice. -/
def goSprintfS : GoVal → String
  | GoVal.str s => s
  | GoVal.int n => "%!s(int=" ++ toString n ++ ")"

/-- The session store visible to the middleware: an association list with
first-match lookup (map semantics). -/
abbrev Session : Type := List (String × GoVal)

/-- `session.Get(key)`: `none` models Go `nil` (key absent). -/
def sessGet : Session → String → Option GoVal
  | [], _ => none
  | (k, v) :: rest, key => if k = key then some v else sessGet rest key

/-- `session.Set(key, value)`: map update (new binding shadows the old). -/
def sessSet (s : Session) (k : String) (v : GoVal) : Session :=
  (k, v) :: s

/-- Lookup in a string/string association list, returning `""` when the key
is absent, as Go's `Header.Get`, `FormValue` and the cookie reader do. -/
def assocGetD : List (String × String) → String → String
  | [], _ => ""
  | (k, v) :: rest, key => if k = key then v else assocGetD rest key

/-- The parts of an `http.Request` the middleware reads. -/
structure Request where
  headers : List (String × String)
  cookies : List (String × String)
  form : List (String × String)
deriving DecidableEq

/-- `r.Header.Get(name)` (empty string when the header is absent). -/
def hdrGet (req : Request) (name : String) : String :=
  assocGetD req.headers name

/-- `session.GetCookie(r, name)` (empty string when the cookie is absent). -/
def cookieGet (req : Request) (name : String) : String :=
  assocGetD req.cookies name

/-- `r.FormValue(name)` (empty string when the field is absent). -/
def formGet (req : Request) (name : String) : String :=
  assocGetD req.form name

/-- An outgoing `http.Cookie` as built by the middleware. `ExpiresDays` is
`some d` when an expiry `d` days ahead was set, `none` when the zero value
was left in place. -/
structure Cookie where
  Name : String
  Value : String
  Path : String
  Domain : String := ""
  Secure : Bool := false
  HttpOnly : Bool := false
  ExpiresDays : Option Nat := none
deriving DecidableEq

/-- A response written directly (message, status code), as by `http.Error`. -/
abbrev ErrResp : Type := String × Nat

/-- The `Options` struct of `src/csrf.go` (lines 115-144). Go zero values
are the field defaults. `ErrorFunc` is a Go function value writing a fixed
response; it is modelled by the response it writes, `none` modelling `nil`. -/
structure Options where
  Secret : String := ""
  Header : String := ""
  Form : String := ""
  Cookie : String := ""
  CookieDomain : String := ""
  CookiePath : String := ""
  CookieHttpOnly : Bool := false
  SessionKey : String := ""
  oldSeesionKey : String := ""
  SetHeader : Bool := false
  SetCookie : Bool := false
  Secure : Bool := false
  Origin : Bool := false
  ErrorFunc : Option ErrResp := none

/-- Defaulting step of `prepareOptions` (src/csrf.go lines 172-174). -/
def defSecret (randSecret : String) (o : Options) : Options :=
  if o.Secret.length = 0 then { o with Secret := randSecret } else o

/-- Defaulting step of `prepareOptions` (src/csrf.go lines 175-177). -/
def defHeader (o : Options) : Options :=
  if o.Header.length = 0 then { o with Header := "X-CSRFToken" } else o

/-- Defaulting step of `prepareOptions` (src/csrf.go lines 178-180). -/
def defForm (o : Options) : Options :=
  if o.Form.length = 0 then { o with Form := "_csrf" } else o

/-- Defaulting step of `prepareOptions` (src/csrf.go lines 181-183). -/
def defCookie (o : Options) : Options :=
  if o.Cookie.length = 0 then { o with Cookie := "_csrf" } else o

/-- Defaulting step of `prepareOptions` (src/csrf.go lines 184-186). -/
def defCookiePath (o : Options) : Options :=
  if o.CookiePath.length = 0 then { o with CookiePath := "/" } else o

/-- Defaulting step of `prepareOptions` (src/csrf.go lines 187-189). -/
def defSessionKey (o : Options) : Options :=
  if o.SessionKey.length = 0 then { o with SessionKey := "uid" } else o

/-- Derivation of the previous-identity session key
(src/csrf.go line 190). -/
def setOldKey (o : Options) : Options :=
  { o with oldSeesionKey := "_old_" ++ o.SessionKey }

/-- Defaulting step of `prepareOptions` (src/csrf.go lines 191-195): the
default failure handler writes HTTP 400 with "Invalid csrf token.". -/
def defErrorFunc (o : Options) : Options :=
  if o.ErrorFunc = none then
    { o with ErrorFunc := some ("Invalid csrf token.", 400) }
  else o

/-- `prepareOptions` (src/csrf.go lines 165-198): take the first provided
options value (or the zero value) and apply each defaulting statement in
source order. `randSecret` stands for the `string(randomBytes(10))` drawn
when no secret is configured. -/
def prepareOptions (options : List Options) (randSecret : String) : Options :=
  defErrorFunc (setOldKey (defSessionKey (defCookiePath (defCookie
    (defForm (defHeader (defSecret randSecret (options.headD {}))))))))

/-- Modelled from the spec: the package-level `GenerateToken` (Token
Authority `derive`) is called from src/csrf.go but not defined there.
Per spec section 4.1 it is a deterministic keyed derivation of
`(secret, identity, actionClass)` keeping the three inputs unambiguously
separated (length-prefixed). -/
def GenerateToken (secret identity actionClass : String) : String :=
  "tk." ++ toString secret.length ++ "." ++ secret ++
    "." ++ toString identity.length ++ "." ++ identity ++
    "." ++ toString actionClass.length ++ "." ++ actionClass

/-- Constant-time string comparison in the style of
`subtle.ConstantTimeCompare`: refuse on length mismatch, otherwise
accumulate the XOR of every character pair and test the accumulator, so
every position is examined regardless of where the first difference sits. -/
def ctEq (a b : String) : Bool :=
  if a.length = b.length then
    (List.zipWith (fun c d => Nat.xor c.toNat d.toNat) a.data b.data).foldl
      (fun acc x => acc ||| x) 0 == 0
  else false

/-- Modelled from the spec: the package-level `ValidToken` (Token Authority
`verify`) is called from src/csrf.go but not defined there. Per spec
section 4.1 it recomputes `derive(secret, identity, actionClass)` and
compares it to the candidate with a constant-time comparison, returning
false on any mismatch including length mismatch. -/
def ValidToken (t secret identity actionClass : String) : Bool :=
  ctEq t (GenerateToken secret identity actionClass)

/-- The `csrf` struct of src/csrf.go (lines 50-71), as handed to `Validate`
through the `CSRF` interface. `ErrorResp` models the response written by
the struct's `ErrorFunc`. -/
structure CsrfSt where
  Header : String
  Form : String
  Cookie : String
  CookieDomain : String := ""
  CookiePath : String
  CookieHttpOnly : Bool := false
  Token : String := ""
  ID : String := ""
  Secret : String
  ErrorResp : ErrResp

/-- The method `(*csrf).ValidToken` (src/csrf.go lines 104-107): validate
against the struct's secret and identity with the fixed action class
`"POST"`. -/
def csrfValidToken (c : CsrfSt) (t : String) : Bool :=
  ValidToken t c.Secret c.ID "POST"

/-- Everything `Generate`'s handler does to the world on one request:
the session it leaves behind, the cookies and response headers it writes,
the context values it attaches to the forwarded request, the token it
settled on, the `needsNew` rotation flag, and whether the Origin bypass
was taken. Both paths forward to the next handler. -/
structure GenResult where
  sess : Session
  cookies : List Cookie
  respHeaders : List (String × String)
  ctx : List (String × String)
  Token : String
  needsNew : Bool
  bypassed : Bool
deriving DecidableEq

/-- The hidden-input HTML fragment built at src/csrf.go line 256. -/
def csrfHiddenInput (token : String) : String :=
  "<input type=\"hidden\" name=\"_csrf\" value=\"" ++ token ++ "\">"

/-- Resolution of the request identity (src/csrf.go lines 223-227):
`"0"` when the session key is absent, else `fmt.Sprintf("%s", uid)`. -/
def resolveID (opt : Options) (sess : Session) : String :=
  match sessGet sess opt.SessionKey with
  | none => "0"
  | some v => goSprintfS v

/-- The tail of `Generate`'s handler shared by all non-bypass paths
(src/csrf.go lines 251-259): optional response header, context values. -/
def finishGen (opt : Options) (sess : Session) (token : String)
    (needsNew : Bool) (cookies : List Cookie) : GenResult :=
  { sess := sess
    cookies := cookies
    respHeaders := if opt.SetHeader then [(opt.Header, token)] else []
    ctx := [("CsrfToken", token), ("CsrfTokenHtml", csrfHiddenInput token)]
    Token := token
    needsNew := needsNew
    bypassed := false }

/-- The `needsNew` branch of `Generate` (src/csrf.go lines 243-249):
derive a fresh token and, when `SetCookie` is set, write it into the
cookie with a one-day expiry. -/
def genNew (opt : Options) (sess : Session) (id : String) : GenResult :=
  let token := GenerateToken opt.Secret id "POST"
  finishGen opt sess token true
    (if opt.SetCookie then
      [{ Name := opt.Cookie, Value := token, Path := opt.CookiePath,
         Domain := opt.CookieDomain, Secure := opt.Secure,
         HttpOnly := opt.CookieHttpOnly, ExpiresDays := some 1 }]
    else [])

/-- The per-request handler of the issuance middleware `Generate`
(src/csrf.go lines 206-260), over already-prepared options (the closure
captures `prepareOptions`' output). `none` models the panic of the
unchecked type assertion `oldUid.(string)` at line 232. -/
def Generate (opt : Options) (req : Request) (sess : Session) :
    Option GenResult :=
  if opt.Origin = true ∧ 0 < (hdrGet req "Origin").length then
    some { sess := sess, cookies := [], respHeaders := [], ctx := [],
           Token := "", needsNew := false, bypassed := true }
  else
    let id := resolveID opt sess
    match sessGet sess opt.oldSeesionKey with
    | none =>
        some (genNew opt (sessSet sess opt.oldSeesionKey (GoVal.str id)) id)
    | some (GoVal.str olds) =>
        if olds = id then
          let val := cookieGet req opt.Cookie
          if 0 < val.length then
            some (finishGen opt sess val false [])
          else
            some (genNew opt sess id)
        else
          some (genNew opt (sessSet sess opt.oldSeesionKey (GoVal.str id)) id)
    | some (GoVal.int _) => none

/-- Everything `Validate`'s handler does to the world on one request
(src/csrf.go lines 275-304): cookies written, whether the configured
failure handler was invoked, the direct response written (if any), and
whether the request was forwarded to the next handler. -/
structure VRes where
  cookies : List Cookie
  errorInvoked : Bool
  response : Option ErrResp
  forwarded : Bool

/-- The rejection performed on an invalid token (src/csrf.go lines 278-285
and 289-296): clear the CSRF cookie and invoke the failure handler. -/
def rejectInvalid (c : CsrfSt) : VRes :=
  { cookies := [{ Name := c.Cookie, Value := "", Path := c.CookiePath }]
    errorInvoked := true
    response := some c.ErrorResp
    forwarded := false }

/-- The per-request handler of the verification middleware `Validate`
(src/csrf.go lines 274-305). -/
def Validate (c : CsrfSt) (req : Request) : VRes :=
  let token := hdrGet req c.Header
  if 0 < token.length then
    if csrfValidToken c token then
      { cookies := [], errorInvoked := false, response := none, forwarded := true }
    else rejectInvalid c
  else
    let token := formGet req c.Form
    if 0 < token.length then
      if csrfValidToken c token then
        { cookies := [], errorInvoked := false, response := none, forwarded := true }
      else rejectInvalid c
    else
      { cookies := [], errorInvoked := false
        response := some ("Bad Request: no CSRF token present", 400)
        forwarded := false }

/-! ## Concrete sample inputs used to instantiate theorems -/

/-- A prepared configuration with an explicit secret, cookie and header
emission enabled, and everything else defaulted. -/
def optEx : Options :=
  prepareOptions [{ Secret := "sec", SetCookie := true, SetHeader := true }] "rnd"

/-- A session holding the identity `"7"` with no previous-identity slot. -/
def sessEx : Session := [("uid", GoVal.str "7")]

/-- A session whose previous-identity slot matches its (anonymous)
identity `"0"`. -/
def sessOld0 : Session := [("_old_uid", GoVal.str "0")]

/-- A session where identity and previous identity agree on `"7"`. -/
def sessReuse : Session := [("uid", GoVal.str "7"), ("_old_uid", GoVal.str "7")]

/-- A request carrying nothing at all. -/
def reqEmpty : Request := { headers := [], cookies := [], form := [] }

/-- A request whose CSRF cookie holds an attacker-chosen value. -/
def reqEvil : Request := { headers := [], cookies := [("_csrf", "evil")], form := [] }

/-- A request whose CSRF cookie holds the value `"tokX"`. -/
def reqReuse : Request := { headers := [], cookies := [("_csrf", "tokX")], form := [] }

/-- The issuance result on `optEx`/`reqEmpty`/`sessEx` (rotation path). -/
def rEx : GenResult :=
  genNew optEx (sessSet sessEx optEx.oldSeesionKey (GoVal.str "7")) "7"

/-- The cookie written on that rotation. -/
def ckEx : Cookie :=
  { Name := "_csrf", Value := GenerateToken "sec" "7" "POST", Path := "/",
    Domain := "", Secure := false, HttpOnly := false, ExpiresDays := some 1 }

/-- A verifier bound to secret `"s1"` and identity `"42"` with the default
failure response. -/
def cEx : CsrfSt :=
  { Header := "X-CSRFToken", Form := "_csrf", Cookie := "_csrf",
    CookiePath := "/", Secret := "s1", ID := "42",
    ErrorResp := ("Invalid csrf token.", 400) }

/-- A request with an invalid header token. -/
def reqBadHdr : Request :=
  { headers := [("X-CSRFToken", "bad")], cookies := [], form := [] }

/-- A request with an invalid header token and a valid form token. -/
def reqBoth : Request :=
  { headers := [("X-CSRFToken", "bad")], cookies := [],
    form := [("_csrf", GenerateToken "s1" "42" "POST")] }

/-! ## Token Authority lemmas -/

theorem nat_or_eq_zero_iff (a b : Nat) : a ||| b = 0 ↔ a = 0 ∧ b = 0 := by
  constructor
  · intro h
    constructor
    · apply Nat.eq_of_testBit_eq
      intro i
      have h2 := congrArg (fun x => Nat.testBit x i) h
      simp at h2
      simp [h2.1]
    · apply Nat.eq_of_testBit_eq
      intro i
      have h2 := congrArg (fun x => Nat.testBit x i) h
      simp at h2
      simp [h2.2]
  · rintro ⟨rfl, rfl⟩
    rfl

theorem foldl_or_eq_zero (l : List Nat) (acc : Nat) :
    (l.foldl (fun a x => a ||| x) acc = 0) ↔ (acc = 0 ∧ ∀ x ∈ l, x = 0) := by
  induction l generalizing acc with
  | nil => simp
  | cons y ys ih =>
      simp only [List.foldl_cons, ih, nat_or_eq_zero_iff, List.mem_cons]
      constructor
      · rintro ⟨⟨h1, h2⟩, h3⟩
        exact ⟨h1, fun x hx => hx.elim (fun he => he ▸ h2) (h3 x)⟩
      · rintro ⟨h1, h2⟩
        exact ⟨⟨h1, h2 y (Or.inl rfl)⟩, fun x hx => h2 x (Or.inr hx)⟩

theorem char_toNat_inj (c d : Char) (h : c.toNat = d.toNat) : c = d := by
  simp [Char.toNat] at h
  exact Char.eq_of_val_eq (by exact UInt32.toNat.inj h)

theorem zipWith_xor_all_zero (xs ys : List Char) (hlen : xs.length = ys.length) :
    (∀ z ∈ List.zipWith (fun c d => Nat.xor c.toNat d.toNat) xs ys, z = 0) ↔ xs = ys := by
  induction xs generalizing ys with
  | nil =>
      cases ys with
      | nil => simp
      | cons d ds => simp at hlen
  | cons c cs ih =>
      cases ys with
      | nil => simp at hlen
      | cons d ds =>
          simp only [List.length_cons, Nat.succ.injEq] at hlen
          simp only [List.zipWith_cons_cons, List.mem_cons, List.cons.injEq]
          constructor
          · intro h
            have h1 : Nat.xor c.toNat d.toNat = 0 := h _ (Or.inl rfl)
            have h2 : cs = ds := (ih ds hlen).mp (fun z hz => h z (Or.inr hz))
            exact ⟨char_toNat_inj c d (Nat.xor_eq_zero.mp h1), h2⟩
          · rintro ⟨rfl, rfl⟩
            intro z hz
            rcases hz with hz | hz
            · rw [hz]
              exact Nat.xor_self c.toNat
            · exact ((ih cs rfl).mpr rfl) z hz

theorem string_length_data (s : String) : s.length = s.data.length := rfl

theorem ctEq_eq_true_iff (a b : String) : ctEq a b = true ↔ a = b := by
  unfold ctEq
  by_cases hlen : a.length = b.length
  · rw [if_pos hlen, beq_iff_eq, foldl_or_eq_zero]
    rw [zipWith_xor_all_zero a.data b.data (by exact hlen)]
    constructor
    · intro h
      cases a
      cases b
      simp_all
    · intro h
      rw [h]
      exact ⟨rfl, rfl⟩
  · rw [if_neg hlen]
    simp only [Bool.false_eq_true, false_iff]
    intro h
    exact hlen (by rw [h])

/-! ## Claim theorems: Token Authority -/

/-- C3: verifying the token produced by `derive(secret, identity,
actionClass)` against the same `(secret, identity, actionClass)` returns
true, for all inputs: `verify` is a left inverse check of `derive`. -/
theorem verify_left_inverse_of_derive :
    ∀ secret identity actionClass : String,
      ValidToken (GenerateToken secret identity actionClass)
        secret identity actionClass = true := by
  intro s i a
  unfold ValidToken
  exact (ctEq_eq_true_iff _ _).mpr rfl

/-- C9: `verify` recomputes `derive(secret, identity, actionClass)` and
compares it to the candidate with the constant-time comparison `ctEq`;
it succeeds exactly on the recomputed token, hence returns false on any
mismatch, and `ctEq` rejects outright on length mismatch. -/
theorem validToken_recompute_and_compare :
    (∀ t secret identity actionClass : String,
       ValidToken t secret identity actionClass = true ↔
         t = GenerateToken secret identity actionClass) ∧
    (∀ a b : String, a.length ≠ b.length → ctEq a b = false) := by
  constructor
  · intro t s i a
    unfold ValidToken
    exact ctEq_eq_true_iff t (GenerateToken s i a)
  · intro a b h
    unfold ctEq
    rw [if_neg h]

/-- Witness for C9 at concrete inputs: a length mismatch is rejected, and
the derived token for `("s1", "42", "POST")` is accepted exactly when the
candidate equals it. -/
theorem validToken_recompute_and_compare_witness :
    ("x".length ≠ "xy".length ∧ ctEq "x" "xy" = false) ∧
    (ValidToken "nope" "s1" "42" "POST" = true ↔
      "nope" = GenerateToken "s1" "42" "POST") :=
  ⟨⟨by decide, validToken_recompute_and_compare.2 "x" "xy" (by decide)⟩,
   validToken_recompute_and_compare.1 "nope" "s1" "42" "POST"⟩

/-! ## Claim theorems: issuance middleware -/

/-- C7: when the `Origin` option is enabled and the request carries a
non-empty `Origin` header, `Generate` forwards the request with no other
effect: the session is unchanged and no cookie, response header or
context value is produced. -/
theorem generate_origin_bypass (opt : Options) (req : Request) (sess : Session)
    (h1 : opt.Origin = true) (h2 : 0 < (hdrGet req "Origin").length) :
    Generate opt req sess =
      some { sess := sess, cookies := [], respHeaders := [], ctx := [],
             Token := "", needsNew := false, bypassed := true } := by
  unfold Generate
  rw [if_pos ⟨h1, h2⟩]

/-- Witness for C7: a concrete request with an `Origin` header under an
Origin-enabled configuration is forwarded untouched. -/
theorem generate_origin_bypass_witness :
    Generate { Secret := "sec", Origin := true, oldSeesionKey := "_old_uid" }
        { headers := [("Origin", "https://a.example")], cookies := [], form := [] }
        [("uid", GoVal.str "7")] =
      some { sess := [("uid", GoVal.str "7")], cookies := [], respHeaders := [],
             ctx := [], Token := "", needsNew := false, bypassed := true } :=
  generate_origin_bypass _ _ _ rfl (by decide)

/-! ## prepareOptions helper lemmas -/

theorem defErrorFunc_oldKey (o : Options) :
    (defErrorFunc o).oldSeesionKey = o.oldSeesionKey := by
  unfold defErrorFunc
  split <;> rfl

theorem defErrorFunc_sessKey (o : Options) :
    (defErrorFunc o).SessionKey = o.SessionKey := by
  unfold defErrorFunc
  split <;> rfl

theorem setOldKey_oldKey (o : Options) :
    (setOldKey o).oldSeesionKey = "_old_" ++ o.SessionKey := rfl

theorem setOldKey_sessKey (o : Options) :
    (setOldKey o).SessionKey = o.SessionKey := rfl

theorem defSecret_err (rs : String) (o : Options) :
    (defSecret rs o).ErrorFunc = o.ErrorFunc := by
  unfold defSecret
  split <;> rfl

theorem defHeader_err (o : Options) : (defHeader o).ErrorFunc = o.ErrorFunc := by
  unfold defHeader
  split <;> rfl

theorem defForm_err (o : Options) : (defForm o).ErrorFunc = o.ErrorFunc := by
  unfold defForm
  split <;> rfl

theorem defCookie_err (o : Options) : (defCookie o).ErrorFunc = o.ErrorFunc := by
  unfold defCookie
  split <;> rfl

theorem defCookiePath_err (o : Options) :
    (defCookiePath o).ErrorFunc = o.ErrorFunc := by
  unfold defCookiePath
  split <;> rfl

theorem defSessionKey_err (o : Options) :
    (defSessionKey o).ErrorFunc = o.ErrorFunc := by
  unfold defSessionKey
  split <;> rfl

theorem setOldKey_err (o : Options) : (setOldKey o).ErrorFunc = o.ErrorFunc := rfl

/-! ## Claim theorems: issuance middleware (continued) -/

/-- C1: off the Origin-bypass path and with a well-typed previous-identity
slot, a new token is derived exactly when the previous identity is absent
or differs from the current identity (and then the current identity is
persisted into the slot), or when it matches but the inbound CSRF cookie
is absent or empty; otherwise the non-empty inbound cookie value is reused
as the request's token and nothing is persisted. -/
theorem generate_rotation_decision (opt : Options) (req : Request) (sess : Session)
    (hb : ¬(opt.Origin = true ∧ 0 < (hdrGet req "Origin").length)) :
    ((sessGet sess opt.oldSeesionKey = none ∨
        (∃ s, sessGet sess opt.oldSeesionKey = some (GoVal.str s) ∧
          s ≠ resolveID opt sess)) →
      ∃ r, Generate opt req sess = some r ∧ r.needsNew = true ∧
        r.Token = GenerateToken opt.Secret (resolveID opt sess) "POST" ∧
        r.sess = sessSet sess opt.oldSeesionKey (GoVal.str (resolveID opt sess))) ∧
    (sessGet sess opt.oldSeesionKey = some (GoVal.str (resolveID opt sess)) →
      (cookieGet req opt.Cookie).length = 0 →
      ∃ r, Generate opt req sess = some r ∧ r.needsNew = true ∧
        r.Token = GenerateToken opt.Secret (resolveID opt sess) "POST" ∧
        r.sess = sess) ∧
    (sessGet sess opt.oldSeesionKey = some (GoVal.str (resolveID opt sess)) →
      0 < (cookieGet req opt.Cookie).length →
      ∃ r, Generate opt req sess = some r ∧ r.needsNew = false ∧
        r.Token = cookieGet req opt.Cookie ∧ r.sess = sess) := by
  refine ⟨?_, ?_, ?_⟩
  · rintro (h | ⟨s, h, hne⟩)
    · have hg : Generate opt req sess =
          some (genNew opt (sessSet sess opt.oldSeesionKey
            (GoVal.str (resolveID opt sess))) (resolveID opt sess)) := by
        unfold Generate
        rw [if_neg hb]
        dsimp only
        rw [h]
      exact ⟨_, hg, rfl, rfl, rfl⟩
    · have hg : Generate opt req sess =
          some (genNew opt (sessSet sess opt.oldSeesionKey
            (GoVal.str (resolveID opt sess))) (resolveID opt sess)) := by
        unfold Generate
        rw [if_neg hb]
        dsimp only
        rw [h]
        dsimp only
        rw [if_neg hne]
      exact ⟨_, hg, rfl, rfl, rfl⟩
  · intro h hc
    have hg : Generate opt req sess =
        some (genNew opt sess (resolveID opt sess)) := by
      unfold Generate
      rw [if_neg hb]
      dsimp only
      rw [h]
      dsimp only
      rw [if_pos rfl]
      rw [if_neg (by omega)]
    exact ⟨_, hg, rfl, rfl, rfl⟩
  · intro h hc
    have hg : Generate opt req sess =
        some (finishGen opt sess (cookieGet req opt.Cookie) false []) := by
      unfold Generate
      rw [if_neg hb]
      dsimp only
      rw [h]
      dsimp only
      rw [if_pos rfl]
      rw [if_pos hc]
    exact ⟨_, hg, rfl, rfl, rfl⟩

/-- Witness for C1 at a concrete input on the reuse branch: unchanged
identity and a non-empty cookie make the middleware reuse the cookie value
without touching the session. -/
theorem generate_rotation_decision_witness :
    ∃ r, Generate optEx reqReuse sessReuse = some r ∧ r.needsNew = false ∧
      r.Token = cookieGet reqReuse optEx.Cookie ∧ r.sess = sessReuse :=
  (generate_rotation_decision optEx reqReuse sessReuse (by decide)).2.2
    (by decide) (by decide)

/-- C2 (amended): every cookie the issuance middleware itself writes
carries exactly `derive(secret, identity, "POST")` for the request's
resolved identity. (The claim as stated also covered the per-request
context token, which on the reuse path is the unchecked inbound cookie
value; see the counterexample.) -/
theorem generate_written_cookie_derivable :
    ∀ (opt : Options) (req : Request) (sess : Session) (r : GenResult),
      Generate opt req sess = some r →
      ∀ ck ∈ r.cookies,
        ck.Value = GenerateToken opt.Secret (resolveID opt sess) "POST" := by
  intro opt req sess r h ck hck
  unfold Generate at h
  dsimp only at h
  split at h
  · cases h
    simp at hck
  · split at h
    · cases h
      simp only [genNew, finishGen] at hck
      split at hck
      · simp at hck
        rw [hck]
      · simp at hck
    · split at h
      · split at h
        · cases h
          simp [finishGen] at hck
        · cases h
          simp only [genNew, finishGen] at hck
          split at hck
          · simp at hck
            rw [hck]
          · simp at hck
      · cases h
        simp only [genNew, finishGen] at hck
        split at hck
        · simp at hck
          rw [hck]
        · simp at hck
    · cases h

/-- Witness for C2's amended theorem: the cookie written on a concrete
rotation carries the derived token. -/
theorem generate_written_cookie_derivable_witness :
    ckEx.Value = GenerateToken optEx.Secret (resolveID optEx sessEx) "POST" :=
  generate_written_cookie_derivable optEx reqEmpty sessEx rEx (by decide)
    ckEx (by decide)

/-- Counterexample to C2 as stated: with an unchanged identity, the
issuance middleware republishes the attacker-chosen inbound cookie value
`"evil"` as the request's active token in the per-request context, and
`"evil"` is not derivable from `(secret, identity, "POST")`. -/
theorem generate_context_token_not_derivable_cex :
    (Generate optEx reqEvil sessOld0).map
        (fun r => assocGetD r.ctx "CsrfToken") = some "evil" ∧
    "evil" ≠ GenerateToken optEx.Secret (resolveID optEx sessOld0) "POST" :=
  ⟨by decide, by decide⟩

/-- C8: every non-bypass issuance result exposes, in the per-request
context, the raw token under the "CsrfToken" key and the hidden-input HTML
fragment embedding that token verbatim under the "CsrfTokenHtml" key. -/
theorem generate_context_values :
    ∀ (opt : Options) (req : Request) (sess : Session) (r : GenResult),
      Generate opt req sess = some r → r.bypassed = false →
      r.ctx = [("CsrfToken", r.Token),
        ("CsrfTokenHtml",
          "<input type=\"hidden\" name=\"_csrf\" value=\"" ++ r.Token ++ "\">")] := by
  intro opt req sess r h hbp
  unfold Generate at h
  dsimp only at h
  split at h
  · cases h
    simp at hbp
  · split at h
    · cases h
      rfl
    · split at h
      · split at h
        · cases h
          rfl
        · cases h
          rfl
      · cases h
        rfl
    · cases h

/-- Witness for C8 at a concrete rotation: the context of the concrete
result `rEx` holds the raw token and the hidden-input fragment. -/
theorem generate_context_values_witness :
    rEx.ctx = [("CsrfToken", rEx.Token),
      ("CsrfTokenHtml",
        "<input type=\"hidden\" name=\"_csrf\" value=\"" ++ rEx.Token ++ "\">")] :=
  generate_context_values optEx reqEmpty sessEx rEx (by decide) (by decide)

/-- C10: the previous-identity key is `"_old_" ++ sessionKey`, and when the
session holds a non-string value under it (and the Origin bypass is not
taken), the issuance handler panics on the unchecked type assertion
`oldUid.(string)` instead of completing. -/
theorem generate_panics_on_nonstring_previous_identity :
    (∀ (options : List Options) (randSecret : String),
       (prepareOptions options randSecret).oldSeesionKey =
         "_old_" ++ (prepareOptions options randSecret).SessionKey) ∧
    (∀ (opt : Options) (req : Request) (sess : Session) (n : Int),
       ¬(opt.Origin = true ∧ 0 < (hdrGet req "Origin").length) →
       sessGet sess opt.oldSeesionKey = some (GoVal.int n) →
       Generate opt req sess = none) := by
  constructor
  · intro options randSecret
    unfold prepareOptions
    rw [defErrorFunc_oldKey, defErrorFunc_sessKey, setOldKey_oldKey,
      setOldKey_sessKey]
  · intro opt req sess n hb h
    unfold Generate
    rw [if_neg hb]
    dsimp only
    rw [h]

/-- Witness for C10: a concrete session holding an integer under
`"_old_uid"` makes the handler panic (model result `none`). -/
theorem generate_panics_on_nonstring_previous_identity_witness :
    Generate optEx reqEmpty [("_old_uid", GoVal.int 3)] = none :=
  generate_panics_on_nonstring_previous_identity.2 optEx reqEmpty
    [("_old_uid", GoVal.int 3)] 3 (by decide) (by decide)

/-! ## Claim theorems: verification middleware -/

/-- C4: the header is a fixed priority over the form field: a non-empty
header token that fails verification rejects the request (failure handler
invoked, not forwarded) whatever the form field holds, and when the header
token is non-empty the outcome does not depend on the form field at all. -/
theorem validate_header_priority :
    (∀ (c : CsrfSt) (req : Request),
       0 < (hdrGet req c.Header).length →
       csrfValidToken c (hdrGet req c.Header) = false →
       (Validate c req).forwarded = false ∧ (Validate c req).errorInvoked = true) ∧
    (∀ (c : CsrfSt) (req req2 : Request),
       0 < (hdrGet req c.Header).length →
       hdrGet req2 c.Header = hdrGet req c.Header →
       Validate c req2 = Validate c req) := by
  constructor
  · intro c req h1 h2
    unfold Validate
    dsimp only
    rw [if_pos h1]
    rw [if_neg (by simp [h2])]
    exact ⟨rfl, rfl⟩
  · intro c req req2 h1 heq
    unfold Validate
    dsimp only
    rw [heq]
    rw [if_pos h1, if_pos h1]

/-- Witness for C4: a concrete request carrying an invalid header token
and a simultaneously valid form token is still rejected. -/
theorem validate_header_priority_witness :
    csrfValidToken cEx (formGet reqBoth cEx.Form) = true ∧
    (Validate cEx reqBoth).forwarded = false ∧
    (Validate cEx reqBoth).errorInvoked = true :=
  ⟨by decide, validate_header_priority.1 cEx reqBoth (by decide) (by decide)⟩

/-- C5: a non-empty candidate token (header first, else form field) that
fails verification makes `Validate` clear the CSRF cookie (empty value,
configured name and path), invoke the configured failure handler, and not
forward; the default failure handler installed by `prepareOptions` writes
HTTP 400 with "Invalid csrf token.". -/
theorem validate_invalid_token_rejection :
    (∀ (c : CsrfSt) (req : Request),
       0 < (hdrGet req c.Header).length →
       csrfValidToken c (hdrGet req c.Header) = false →
       Validate c req =
         { cookies := [{ Name := c.Cookie, Value := "", Path := c.CookiePath }],
           errorInvoked := true, response := some c.ErrorResp,
           forwarded := false }) ∧
    (∀ (c : CsrfSt) (req : Request),
       (hdrGet req c.Header).length = 0 →
       0 < (formGet req c.Form).length →
       csrfValidToken c (formGet req c.Form) = false →
       Validate c req =
         { cookies := [{ Name := c.Cookie, Value := "", Path := c.CookiePath }],
           errorInvoked := true, response := some c.ErrorResp,
           forwarded := false }) ∧
    (∀ (o : Options) (randSecret : String),
       o.ErrorFunc = none →
       (prepareOptions [o] randSecret).ErrorFunc =
         some ("Invalid csrf token.", 400)) := by
  refine ⟨?_, ?_, ?_⟩
  · intro c req h1 h2
    unfold Validate
    dsimp only
    rw [if_pos h1]
    rw [if_neg (by simp [h2])]
    rfl
  · intro c req h1 h2 h3
    unfold Validate
    dsimp only
    rw [if_neg (by omega)]
    rw [if_pos h2]
    rw [if_neg (by simp [h3])]
    rfl
  · intro o randSecret h
    unfold prepareOptions
    have hkeep : (setOldKey (defSessionKey (defCookiePath (defCookie
        (defForm (defHeader (defSecret randSecret ([o].headD {})))))))).ErrorFunc =
        none := by
      rw [setOldKey_err, defSessionKey_err, defCookiePath_err, defCookie_err,
        defForm_err, defHeader_err, defSecret_err]
      exact h
    unfold defErrorFunc
    rw [if_pos hkeep]

/-- Witness for C5: rejection of a concrete invalid header token, plus the
default failure response installed when no handler is configured. -/
theorem validate_invalid_token_rejection_witness :
    Validate cEx reqBadHdr =
      { cookies := [{ Name := cEx.Cookie, Value := "", Path := cEx.CookiePath }],
        errorInvoked := true, response := some cEx.ErrorResp,
        forwarded := false } ∧
    (prepareOptions [{ Secret := "sec" }] "rnd").ErrorFunc =
      some ("Invalid csrf token.", 400) :=
  ⟨validate_invalid_token_rejection.1 cEx reqBadHdr (by decide) (by decide),
   validate_invalid_token_rejection.2.2 { Secret := "sec" } "rnd" rfl⟩

/-- C6 (amended): with neither a header nor a form token present,
`Validate` responds with HTTP 400 and the message
"Bad Request: no CSRF token present", does not forward, and writes no
cookie. -/
theorem validate_no_token_rejection (c : CsrfSt) (req : Request)
    (h1 : (hdrGet req c.Header).length = 0)
    (h2 : (formGet req c.Form).length = 0) :
    Validate c req =
      { cookies := [], errorInvoked := false,
        response := some ("Bad Request: no CSRF token present", 400),
        forwarded := false } := by
  unfold Validate
  dsimp only
  rw [if_neg (by omega)]
  rw [if_neg (by omega)]

/-- Witness for C6's amended theorem at a concrete token-free request. -/
theorem validate_no_token_rejection_witness :
    Validate cEx reqEmpty =
      { cookies := [], errorInvoked := false,
        response := some ("Bad Request: no CSRF token present", 400),
        forwarded := false } :=
  validate_no_token_rejection cEx reqEmpty (by decide) (by decide)

/-- Counterexample to C6 as stated: on a token-free request the response
message actually written is "Bad Request: no CSRF token present", not the
claimed "no CSRF token present". -/
theorem validate_no_token_message_cex :
    (Validate cEx reqEmpty).response =
      some ("Bad Request: no CSRF token present", 400) ∧
    (Validate cEx reqEmpty).response ≠
      some (("no CSRF token present", 400) : ErrResp) :=
  ⟨by decide, by decide⟩
